/-
Verification of the OpenAstroTracker polar-alignment assistant.

Shallow embedding of the repository's core modules:
  * `config.py`        — configuration constants
  * `pa_calculator.py` — coordinate parsing and polar-alignment error model
  * `mount_client.py`  — mount command protocol client (serial mode)
  * `app.py`           — alignment control loop and run lifecycle

Python strings are embedded as `List Char`; Python's arbitrary-precision
ints as `ℤ`; float arithmetic is idealised as exact arithmetic (`ℚ` for the
parsers, `ℝ` for the trigonometric error model, as is standard for
verifying numeric code without modelling rounding).
-/
import Mathlib

set_option linter.unusedVariables false

namespace OATPA

/-! ### config.py — the constants used by the verified modules -/

/-- `config.TARGET_ACCURACY = 60` (arcseconds). -/
def TARGET_ACCURACY : ℚ := 60

/-- `config.MAX_ITERATIONS = 20`. -/
def MAX_ITERATIONS : ℕ := 20

/-- `config.LATITUDE = 40.0` (degrees). -/
def LATITUDE : ℝ := 40

/-- `config.SETTLE_TIME = 1.0` (seconds). -/
def SETTLE_TIME : ℚ := 1

/-! ### Python string primitives

The parsers in `pa_calculator.py` use `str.strip`, `str.split`,
`str.replace`, `int(...)` and `float(...)`.  We embed Python strings as
`List Char` and give executable models of those primitives, faithful on
the plain-ASCII decimal inputs this program deals with (Python's exotic
literal forms — underscores, unicode digits, exponents, `inf`/`nan` — are
outside every input this repository ever constructs or parses). -/

/-- The apostrophe character (ASCII 39), one of the separators handled by
`parse_dec_string`. -/
def apostropheChar : Char := Char.ofNat 39

/-- The double-quote character (ASCII 34), stripped by `parse_dec_string`. -/
def quoteChar : Char := Char.ofNat 34

/-- `str.strip()` with no argument: remove leading and trailing whitespace. -/
def pyStrip (l : List Char) : List Char :=
  ((l.dropWhile Char.isWhitespace).reverse.dropWhile Char.isWhitespace).reverse

/-- `str.split(sep)` for a one-character separator `sep`:
`"".split(sep) = [""]`, and every occurrence of `sep` starts a new field. -/
def splitOnChar (sep : Char) : List Char → List (List Char)
  | [] => [[]]
  | c :: rest =>
    match splitOnChar sep rest with
    | [] => [[c]]
    | h :: t => if c = sep then [] :: h :: t else (c :: h) :: t

/-- Numeric value of a decimal digit character. -/
def digitVal (c : Char) : ℕ := c.toNat - 48

/-- Value of a string of decimal digits, most significant first. -/
def digitsToNat (l : List Char) : ℕ := l.foldl (fun a c => a * 10 + digitVal c) 0

/-- `int(s)` after whitespace stripping: optional single `+`/`-` sign,
then one or more decimal digits; every other input raises `ValueError`
(modelled as `none`). -/
def pyIntCore : List Char → Option ℤ
  | [] => none
  | c :: rest =>
    if c = '-' then
      if rest ≠ [] ∧ rest.all Char.isDigit = true then some (-(digitsToNat rest : ℤ)) else none
    else if c = '+' then
      if rest ≠ [] ∧ rest.all Char.isDigit = true then some (digitsToNat rest : ℤ) else none
    else
      if (c :: rest).all Char.isDigit = true then some (digitsToNat (c :: rest) : ℤ) else none

/-- `int(s)` on a plain decimal literal: Python strips surrounding
whitespace itself. -/
def pyInt (l : List Char) : Option ℤ := pyIntCore (pyStrip l)

/-- The digits-dot-digits stage of `float(s)`: `digits`, `digits.digits`,
`digits.` or `.digits` with at least one digit overall. -/
def pyFloatBody (sgn : ℚ) (body : List Char) : Option ℚ :=
  let ip := body.takeWhile Char.isDigit
  let rest := body.dropWhile Char.isDigit
  match rest with
  | [] => if ip ≠ [] then some (sgn * (digitsToNat ip : ℚ)) else none
  | d :: fp =>
    if d = '.' then
      if fp.all Char.isDigit = true ∧ (ip ≠ [] ∨ fp ≠ []) then
        some (sgn * ((digitsToNat ip : ℚ) + (digitsToNat fp : ℚ) / (10 : ℚ) ^ fp.length))
      else none
    else none

/-- `float(s)` after whitespace stripping: optional sign, then the
digits-dot-digits body. -/
def pyFloatCore : List Char → Option ℚ
  | [] => none
  | c :: rest =>
    if c = '-' then pyFloatBody (-1) rest
    else if c = '+' then pyFloatBody 1 rest
    else pyFloatBody 1 (c :: rest)

/-- `float(s)` on a plain decimal literal: optional surrounding
whitespace, optional sign, then `digits`, `digits.digits`, `digits.` or
`.digits` (at least one digit overall); every other input raises
`ValueError` (modelled as `none`; exponents, `inf`/`nan` are outside
every input this repository constructs). -/
def pyFloat (l : List Char) : Option ℚ := pyFloatCore (pyStrip l)

/-! ### pa_calculator.py — string parsers -/

/-- `parse_ra_string` (pa_calculator.py lines 155–188): strip, split on
`:`; exactly three fields are parsed as `int`/`int`/`float` HH:MM:SS and
converted at 15°/hour; any other field count falls back to
`float(ra_str)` decimal hours; any conversion error yields `None`. -/
def parse_ra_string (ra_str : List Char) : Option ℚ :=
  let s := pyStrip ra_str
  let parts := splitOnChar ':' s
  if parts.length = 3 then
    match pyInt (parts.getD 0 []), pyInt (parts.getD 1 []), pyFloat (parts.getD 2 []) with
    | some hours, some minutes, some seconds =>
      some (((hours : ℚ) + (minutes : ℚ) / 60 + seconds / 3600) * 15)
    | _, _, _ => none
  else
    (pyFloat s).map fun ra_hours => ra_hours * 15

/-- The separator normalisation of `parse_dec_string` (line 216):
`dec_str.replace('*', ':').replace(<apostrophe>, ':').replace(<quote>, '')`.
Note the double-quote character is removed, not turned into `:`. -/
def decNormalize (l : List Char) : List Char :=
  ((l.map fun c => if c = '*' then ':' else c).map
      fun c => if c = apostropheChar then ':' else c).filter
    fun c => c ≠ quoteChar

/-- The post-sign, post-normalisation stage of `parse_dec_string`
(lines 218–228): split on `:`; two or more fields are parsed as
`int` degrees, `int` minutes and (when a third field exists) `float`
seconds — fields beyond the third are ignored; a single field falls back
to `float(dec_str) * sign`; any conversion error yields `None`. -/
def parse_dec_core (sign : ℚ) (s2 : List Char) : Option ℚ :=
  let parts := splitOnChar ':' s2
  if 2 ≤ parts.length then
    match pyInt (parts.getD 0 []), pyInt (parts.getD 1 []),
        (if 2 < parts.length then pyFloat (parts.getD 2 []) else some 0) with
    | some degs, some mins, some secs =>
      some (sign * ((degs : ℚ) + (mins : ℚ) / 60 + secs / 3600))
    | _, _, _ => none
  else
    (pyFloat s2).map fun v => v * sign

/-- `parse_dec_string` (pa_calculator.py lines 191–232): strip, read an
optional leading sign (`dec_str[0]` on the empty string raises, caught as
`None`), normalise separators, then `parse_dec_core`. -/
def parse_dec_string (dec_str : List Char) : Option ℚ :=
  match pyStrip dec_str with
  | [] => none
  | c0 :: rest =>
    if c0 = '-' then parse_dec_core (-1) (decNormalize rest)
    else if c0 = '+' then parse_dec_core 1 (decNormalize rest)
    else parse_dec_core 1 (decNormalize (c0 :: rest))

/-! ### pa_calculator.py — polar-alignment error model

`calculate_pa_error` works in radians via `math.radians`/`math.degrees`
and wraps the RA difference with two `while` loops.  Reals replace IEEE
doubles; the two loops become the well-founded recursions `wrapDown` and
`wrapUp`. -/

/-- `math.radians`: degrees to radians. -/
noncomputable def radians (x : ℝ) : ℝ := x * (Real.pi / 180)

/-- `math.degrees`: radians to degrees. -/
noncomputable def degrees (x : ℝ) : ℝ := x * (180 / Real.pi)

/-- The first wrap loop of `calculate_pa_error` (lines 99–100):
`while delta_ra > pi: delta_ra -= 2 * pi`. -/
noncomputable def wrapDown (x : ℝ) : ℝ :=
  if x > Real.pi then wrapDown (x - 2 * Real.pi) else x
termination_by (⌈x / Real.pi⌉).toNat
decreasing_by
  have hπ := Real.pi_pos
  have h2 : (x - 2 * Real.pi) / Real.pi = x / Real.pi - 2 := by
    field_simp
    ring
  have h3 : ⌈x / Real.pi - 2⌉ = ⌈x / Real.pi⌉ - 2 := by
    exact_mod_cast Int.ceil_sub_int (x / Real.pi) 2
  have h4 : (1 : ℝ) < x / Real.pi := (one_lt_div hπ).2 (by linarith)
  have h5 : (1 : ℤ) < ⌈x / Real.pi⌉ := Int.lt_ceil.2 (by exact_mod_cast h4)
  rw [h2, h3]
  omega

/-- The second wrap loop of `calculate_pa_error` (lines 101–102):
`while delta_ra < -pi: delta_ra += 2 * pi`. -/
noncomputable def wrapUp (x : ℝ) : ℝ :=
  if x < -Real.pi then wrapUp (x + 2 * Real.pi) else x
termination_by (⌈-x / Real.pi⌉).toNat
decreasing_by
  have hπ := Real.pi_pos
  have h2 : -(x + 2 * Real.pi) / Real.pi = -x / Real.pi - 2 := by
    field_simp
    ring
  have h3 : ⌈-x / Real.pi - 2⌉ = ⌈-x / Real.pi⌉ - 2 := by
    exact_mod_cast Int.ceil_sub_int (-x / Real.pi) 2
  have h4 : (1 : ℝ) < -x / Real.pi := (one_lt_div hπ).2 (by linarith)
  have h5 : (1 : ℤ) < ⌈-x / Real.pi⌉ := Int.lt_ceil.2 (by exact_mod_cast h4)
  rw [h2, h3]
  omega

/-- Both wrap loops in source order. -/
noncomputable def wrapPi (x : ℝ) : ℝ := wrapUp (wrapDown x)

/-- The `PAError` dataclass of `pa_calculator.py`: azimuth and altitude
error in arcminutes, total error in arcseconds. -/
structure PAError where
  az_error : ℝ
  alt_error : ℝ
  total_error : ℝ

/-- `PAError.is_aligned` with an explicit target (the Python default
`None` selects `config.TARGET_ACCURACY`, see `is_aligned_default`). -/
def PAError.is_aligned (e : PAError) (target_accuracy : ℝ) : Prop :=
  e.total_error < target_accuracy

/-- `PAError.is_aligned()` with the defaulted target accuracy. -/
def PAError.is_aligned_default (e : PAError) : Prop :=
  e.is_aligned (TARGET_ACCURACY : ℝ)

/-- `calculate_pa_error` (pa_calculator.py lines 57–152), translated
line by line.  `sin_lat`/`cos_lat` are computed and never used, exactly
as in the source (lines 134–135). -/
noncomputable def calculate_pa_error (solved_ra solved_dec mount_ra mount_dec latitude : ℝ) :
    PAError :=
  let solved_ra_rad := radians solved_ra
  let solved_dec_rad := radians solved_dec
  let mount_ra_rad := radians mount_ra
  let mount_dec_rad := radians mount_dec
  let lat_rad := radians latitude
  let delta_ra := wrapPi (solved_ra_rad - mount_ra_rad)
  let delta_dec := solved_dec_rad - mount_dec_rad
  let delta_ra_arcmin := degrees delta_ra * 60
  let delta_dec_arcmin := degrees delta_dec * 60
  let cos_dec_raw := Real.cos mount_dec_rad
  let cos_dec := if cos_dec_raw < 0.1 then 0.1 else cos_dec_raw
  let az_error := delta_ra_arcmin / cos_dec
  let alt_error := delta_dec_arcmin
  let sin_lat := Real.sin lat_rad
  let cos_lat := Real.cos lat_rad
  let total_error_arcmin := Real.sqrt (az_error ^ 2 + alt_error ^ 2)
  let total_error_arcsec := total_error_arcmin * 60
  { az_error := az_error, alt_error := alt_error, total_error := total_error_arcsec }

/-- The spec's formulation of the error model (spec.md §4.1 step 4–6):
`azimuthArcmin = ΔraArcmin / max(cos(reported.dec), 0.1)`,
`altitudeArcmin = ΔdecArcmin`, and
`totalArcsec = 60 * hypot(azimuthArcmin, altitudeArcmin)`.
Stated from the spec's words, to be compared with `calculate_pa_error`. -/
noncomputable def computeAlignmentError_SPEC (solved_ra solved_dec mount_ra mount_dec : ℝ) :
    PAError :=
  let delta_ra_arcmin := degrees (wrapPi (radians (solved_ra - mount_ra))) * 60
  let delta_dec_arcmin := (solved_dec - mount_dec) * 60
  let az := delta_ra_arcmin / max (Real.cos (radians mount_dec)) 0.1
  { az_error := az
    alt_error := delta_dec_arcmin
    total_error := 60 * Real.sqrt (az ^ 2 + delta_dec_arcmin ^ 2) }

/-- `calculate_correction` (pa_calculator.py lines 235–256):
negate the azimuth error, negate it again when `invert_az`,
keep the altitude error. -/
def calculate_correction (pa_error : PAError) (invert_az : Bool) : ℝ × ℝ :=
  let az_correction := -pa_error.az_error
  let alt_correction := pa_error.alt_error
  (if invert_az then -az_correction else az_correction, alt_correction)

/-! ### mount_client.py — serial mount client

The serial transport is abstracted as an environment: whether opening the
port succeeds, and what `_serial_command` would return for each command
(`none` models an exception inside the transport call, `some r` the
accumulated response text, possibly empty on timeout). -/

/-- `self.mode`: `'serial'` or `'indi'`. -/
inductive MountMode
  | serial
  | indi

/-- The mutable fields of `MountClient` relevant to connection state:
`mode`, `_connected`, and `serial_conn` (`some b` = a serial object is
held with `is_open = b`, `none` = no serial object yet). -/
structure MountState where
  mode : Option MountMode
  connected : Bool
  serial_conn : Option Bool

/-- Outcomes supplied by the serial transport. -/
structure SerialEnv where
  serial_available : Bool
  open_ok : Bool
  responses : List Char → Option (List Char)

/-- The product-identification command sent by `_connect_serial`. -/
def GVP_COMMAND : List Char := (":GVP#").toList

/-- The vendor substring expected in the `:GVP#` response. -/
def OPENASTRO : List Char := ("OpenAstro").toList

/-- Python's `needle in hay` substring test. -/
def isSubstringOf (needle : List Char) : List Char → Bool
  | [] => needle.isEmpty
  | c :: rest => needle.isPrefixOf (c :: rest) || isSubstringOf needle rest

/-- The handshake acceptance test of `_connect_serial` (line 196):
`response and "OpenAstro" in response` — `None` and the empty string are
falsy, otherwise a substring check. -/
def gvp_handshake_ok (resp : Option (List Char)) : Bool :=
  match resp with
  | none => false
  | some r => !r.isEmpty && isSubstringOf OPENASTRO r

/-- `MountClient._connect_serial` (mount_client.py lines 179–210): open
the port, query `:GVP#`, accept only a response containing `OpenAstro`;
on a bad response close the port and report failure; if opening raised,
the handler closes whatever serial object was already held. -/
def connect_serial (env : SerialEnv) (st : MountState) : MountState × Bool :=
  if env.serial_available = false then (st, false)
  else if env.open_ok = true then
    let st1 : MountState := { st with serial_conn := some true }
    if gvp_handshake_ok (env.responses GVP_COMMAND) = true then
      ({ st1 with mode := some .serial, connected := true }, true)
    else
      ({ st1 with serial_conn := some false }, false)
  else
    (match st.serial_conn with
      | some _ => { st with serial_conn := some false }
      | none => st,
     false)

/-- `MountClient._serial_command` (lines 260–288) as seen through the
transport environment: an exception yields `None`; with
`expect_response=False` the command is written and `""` returned without
reading. -/
def serial_command (env : SerialEnv) (command : List Char) (expect_response : Bool) :
    Option (List Char) :=
  match env.responses command with
  | none => none
  | some r => if expect_response then some r else some []

/-- `MountClient.send_command` (lines 235–258).  The second component
records the commands actually submitted to the transport, so that
"performs no write" is a provable statement: not connected means no
transport interaction at all. -/
def send_command (env : SerialEnv) (st : MountState) (command : List Char)
    (expect_response : Bool) : Option (List Char) × List (List Char) :=
  if st.connected = false then (none, [])
  else
    match st.mode with
    | some .serial => (serial_command env command expect_response, [command])
    | some .indi => (none, [])
    | none => (none, [])

/-- `MountClient.get_position` (lines 299–313): `:GR#` then `:GD#`. -/
def get_position (env : SerialEnv) (st : MountState) :
    Option (List Char) × Option (List Char) :=
  ((send_command env st (":GR#").toList true).1, (send_command env st (":GD#").toList true).1)

/-- `MountClient.get_status` (lines 315–327): `:GX#`. -/
def get_status (env : SerialEnv) (st : MountState) : Option (List Char) :=
  (send_command env st (":GX#").toList true).1

/-- `MountClient.is_slewing` (lines 329–342): response `"1"` means true. -/
def is_slewing (env : SerialEnv) (st : MountState) : Bool :=
  (send_command env st (":GIS#").toList true).1 == some (("1").toList)

/-- `MountClient.is_tracking` (lines 344–357): response `"1"` means true. -/
def is_tracking (env : SerialEnv) (st : MountState) : Bool :=
  (send_command env st (":GIT#").toList true).1 == some (("1").toList)

/-- `MountClient.is_adjusting` (lines 359–382): parse the `:GX#` status
record; field 1, offsets 3 and 4, `-` meaning idle. -/
def is_adjusting (env : SerialEnv) (st : MountState) : Bool :=
  match get_status env st with
  | some status =>
    if status.isEmpty then false
    else
      let parts := splitOnChar ',' status
      if 2 ≤ parts.length then
        let motion := parts.getD 1 []
        if 5 ≤ motion.length then
          (motion.getD 3 ' ' != '-') || (motion.getD 4 ' ' != '-')
        else false
      else false
  | none => false

/-- `MountClient.get_az_alt_position` (lines 483–503): `:XGAA#`, split on
`|`, parse two ints, `(None, None)` on any failure. -/
def get_az_alt_position (env : SerialEnv) (st : MountState) : Option ℤ × Option ℤ :=
  match (send_command env st (":XGAA#").toList true).1 with
  | some response =>
    if response.isEmpty then (none, none)
    else
      let parts := splitOnChar '|' response
      if 2 ≤ parts.length then
        match pyInt (parts.getD 0 []), pyInt (parts.getD 1 []) with
        | some a, some b => (some a, some b)
        | _, _ => (none, none)
      else (none, none)
  | none => (none, none)

/-- `MountClient.set_tracking` (lines 468–481): `:MT1#` / `:MT0#`. -/
def set_tracking (env : SerialEnv) (st : MountState) (enabled : Bool) :
    Option (List Char) × List (List Char) :=
  send_command env st (if enabled then (":MT1#").toList else (":MT0#").toList) true

/-- `MountClient.home_az_alt` (lines 505–517): fire-and-forget `:MAAH#`.
The relative-move commands `move_azimuth`/`move_altitude` likewise go
through `send_command` with `expect_response=False`; their float
formatting is irrelevant to the properties proved here, which quantify
over every command. -/
def home_az_alt (env : SerialEnv) (st : MountState) :
    Option (List Char) × List (List Char) :=
  send_command env st (":MAAH#").toList false

/-! ### app.py — control loop and run lifecycle -/

/-- The status messages emitted by `auto_align_loop` via `emit_status`,
one constructor per `emit_status` call site, carrying the interpolated
data. -/
inductive Event
  | autoAlignStarted
  | iterationCapturing (iteration : ℕ)
  | captureFailed
  | iterationSolving (iteration : ℕ)
  | plateSolveFailed
  | cannotReadMountPosition
  | iterationError (iteration : ℕ) (pa : PAError)
  | aligned (total : ℝ)
  | applyingCorrection (az alt : ℝ)
  | maxIterationsReached (maxIterations : ℕ)
  | autoAlignFinished

/-- The observable actions of one pass of the loop body, in program
order: `emit_status` calls, `time.sleep` pauses, mount move commands and
the bounded `is_adjusting` poll (step 7). -/
inductive Effect
  | emit (e : Event)
  | sleep (seconds : ℚ)
  | moveAzimuth (arcmin : ℝ)
  | moveAltitude (arcmin : ℝ)
  | waitAdjusting

/-- What the collaborators would return during one pass of the loop:
`camera.capture` (a filepath or `None`), `solver.solve` (`(ra, dec)` in
degrees or `None`), and the two strings of `mount.get_position()`. -/
structure IterEnv where
  capture : Option (List Char)
  solve : Option (ℝ × ℝ)
  ra_text : Option (List Char)
  dec_text : Option (List Char)

/-- The loop-owned mutable state of `auto_align_loop`: the
`alignment_running` flag, the `iteration` counter and the
`last_pa_error` / `last_solve_result` globals. -/
structure LoopState where
  alignment_running : Bool
  iteration : ℕ
  last_pa_error : Option PAError
  last_solve_result : Option (ℝ × ℝ)

/-- One pass of the `while` body of `auto_align_loop` (app.py lines
448–517), entered when `alignment_running and iteration <
max_iterations` held.  Returns the new state, the effects of the pass in
order, and whether the pass left the loop through `break` (step 5).
Note `iteration += 1` happens first (line 449), before the capture. -/
noncomputable def auto_align_step (target_accuracy : ℝ) (env : IterEnv) (st : LoopState) :
    LoopState × List Effect × Bool :=
  let it := st.iteration + 1
  let st0 : LoopState := { st with iteration := it }
  match env.capture with
  | none =>
    (st0, [.emit (.iterationCapturing it), .emit .captureFailed, .sleep 2], false)
  | some _filepath =>
    match env.solve with
    | none =>
      (st0, [.emit (.iterationCapturing it), .emit (.iterationSolving it),
        .emit .plateSolveFailed, .sleep 2], false)
    | some result =>
      let st1 : LoopState := { st0 with last_solve_result := some result }
      let mount_ra := env.ra_text.bind parse_ra_string
      let mount_dec := env.dec_text.bind parse_dec_string
      match mount_ra, mount_dec with
      | some mra, some mdec =>
        let pa := calculate_pa_error result.1 result.2 (mra : ℝ) (mdec : ℝ) LATITUDE
        let st2 : LoopState := { st1 with last_pa_error := some pa }
        if pa.total_error < target_accuracy then
          (st2, [.emit (.iterationCapturing it), .emit (.iterationSolving it),
            .emit (.iterationError it pa), .emit (.aligned pa.total_error)], true)
        else
          let corr := calculate_correction pa true
          (st2, [.emit (.iterationCapturing it), .emit (.iterationSolving it),
            .emit (.iterationError it pa), .emit (.applyingCorrection corr.1 corr.2),
            .moveAzimuth corr.1, .moveAltitude corr.2, .sleep (1/2), .waitAdjusting,
            .sleep SETTLE_TIME], false)
      | _, _ =>
        (st1, [.emit (.iterationCapturing it), .emit (.iterationSolving it),
          .emit .cannotReadMountPosition, .sleep 2], false)

/-- The `while alignment_running and iteration < max_iterations` loop of
`auto_align_loop`, driven by one `IterEnv` per executed pass.  `fuel`
bounds the recursion; since every pass increments `iteration`, fuel
`MAX_ITERATIONS` is exact for a run started at iteration 0. -/
noncomputable def auto_align_go (target_accuracy : ℝ) (envs : ℕ → IterEnv) :
    ℕ → LoopState → LoopState × List Effect
  | 0, st => (st, [])
  | fuel + 1, st =>
    if st.alignment_running = true ∧ st.iteration < MAX_ITERATIONS then
      let r := auto_align_step target_accuracy (envs st.iteration) st
      if r.2.2 then (r.1, r.2.1)
      else
        let rest := auto_align_go target_accuracy envs fuel r.1
        (rest.1, r.2.1 ++ rest.2)
    else (st, [])

/-- `auto_align_loop` (app.py lines 425–523) end to end: start from
iteration 0, emit the start event, run the loop, emit the
max-iterations warning when the counter reached the bound, clear
`alignment_running`, emit the finish event. -/
noncomputable def auto_align_loop (target_accuracy : ℝ) (envs : ℕ → IterEnv)
    (st : LoopState) : LoopState × List Effect :=
  let st0 : LoopState := { st with iteration := 0 }
  let r := auto_align_go target_accuracy envs MAX_ITERATIONS st0
  ({ r.1 with alignment_running := false },
    [Effect.emit .autoAlignStarted] ++ r.2 ++
      (if MAX_ITERATIONS ≤ r.1.iteration then [Effect.emit (.maxIterationsReached MAX_ITERATIONS)]
        else []) ++
      [Effect.emit .autoAlignFinished])

/-- Result of `POST /api/auto-align/start`. -/
inductive StartResult
  | started
  | alreadyRunning

/-- The server-side global state touched by the auto-align endpoints:
`alignment_running`, plus an instrumentation counter for how many worker
threads have been created and started. -/
structure ServerState where
  alignment_running : Bool
  workers_started : ℕ
  last_pa_error : Option PAError
  last_solve_result : Option (ℝ × ℝ)

/-- `api_auto_align_start` (app.py lines 361–379): reject with HTTP 400
`'Alignment already running'` when `alignment_running` is set, touching
nothing; otherwise set the flag and start one worker thread. -/
def api_auto_align_start (st : ServerState) (target_accuracy : ℚ) : ServerState × StartResult :=
  if st.alignment_running = true then (st, .alreadyRunning)
  else
    ({ st with alignment_running := true, workers_started := st.workers_started + 1 },
      .started)

/-- `api_auto_align_stop` (app.py lines 382–388): clear the flag,
always succeed. -/
def api_auto_align_stop (st : ServerState) : ServerState × Bool :=
  ({ st with alignment_running := false }, true)

/-! ## Helper lemmas -/

theorem wrapDown_le (x : ℝ) : wrapDown x ≤ Real.pi := by
  induction x using wrapDown.induct with
  | case1 x h ih =>
    rw [wrapDown.eq_def]
    split
    · exact ih
    · linarith [Real.pi_pos]
  | case2 x h =>
    rw [wrapDown.eq_def]
    split
    · exact absurd (by assumption) h
    · linarith [not_lt.1 h]

theorem wrapUp_ge (x : ℝ) : -Real.pi ≤ wrapUp x := by
  induction x using wrapUp.induct with
  | case1 x h ih =>
    rw [wrapUp.eq_def]
    split
    · exact ih
    · linarith
  | case2 x h =>
    rw [wrapUp.eq_def]
    split
    · exact absurd (by assumption) h
    · linarith [not_lt.1 h]

theorem wrapDown_eq_of_le {x : ℝ} (h : x ≤ Real.pi) : wrapDown x = x := by
  rw [wrapDown.eq_def, if_neg (not_lt.2 h)]

theorem wrapUp_eq_of_ge {x : ℝ} (h : -Real.pi ≤ x) : wrapUp x = x := by
  rw [wrapUp.eq_def, if_neg (not_lt.2 h)]

theorem wrapUp_le (x : ℝ) : x ≤ Real.pi → wrapUp x ≤ Real.pi := by
  induction x using wrapUp.induct with
  | case1 x h ih =>
    intro hx
    rw [wrapUp.eq_def, if_pos h]
    exact ih (by linarith)
  | case2 x h =>
    intro hx
    rw [wrapUp.eq_def, if_neg h]
    exact hx

theorem wrapDown_gt (x : ℝ) : -Real.pi < x → -Real.pi < wrapDown x := by
  induction x using wrapDown.induct with
  | case1 x h ih =>
    intro hx
    rw [wrapDown.eq_def, if_pos h]
    exact ih (by linarith)
  | case2 x h =>
    intro hx
    rw [wrapDown.eq_def, if_neg h]
    exact hx

theorem wrapUp_lt (x : ℝ) : x < Real.pi → wrapUp x < Real.pi := by
  induction x using wrapUp.induct with
  | case1 x h ih =>
    intro hx
    rw [wrapUp.eq_def, if_pos h]
    exact ih (by linarith)
  | case2 x h =>
    intro hx
    rw [wrapUp.eq_def, if_neg h]
    exact hx

theorem wrap_comm (x : ℝ) : wrapDown (wrapUp x) = wrapUp (wrapDown x) := by
  have hπ := Real.pi_pos
  by_cases hx : x > Real.pi
  · rw [wrapUp_eq_of_ge (by linarith)]
    rw [wrapUp_eq_of_ge (le_of_lt (wrapDown_gt x (by linarith)))]
  · by_cases hx2 : x < -Real.pi
    · rw [wrapDown_eq_of_le (not_lt.1 hx)]
      rw [wrapDown_eq_of_le (le_of_lt (wrapUp_lt x (by linarith)))]
    · rw [wrapUp_eq_of_ge (by linarith [not_lt.1 hx2])]
      rw [wrapDown_eq_of_le (not_lt.1 hx)]
      rw [wrapUp_eq_of_ge (by linarith [not_lt.1 hx2])]

theorem wrapUp_neg (x : ℝ) : wrapUp (-x) = -wrapDown x := by
  induction x using wrapDown.induct with
  | case1 x h ih =>
    rw [wrapDown.eq_def, if_pos h]
    rw [wrapUp.eq_def, if_pos (by linarith : -x < -Real.pi)]
    have harg : -x + 2 * Real.pi = -(x - 2 * Real.pi) := by ring
    rw [harg, ih]
  | case2 x h =>
    rw [wrapDown.eq_def, if_neg h]
    rw [wrapUp.eq_def, if_neg (by simp at h ⊢; linarith : ¬ -x < -Real.pi)]

theorem wrapDown_neg (x : ℝ) : wrapDown (-x) = -wrapUp x := by
  induction x using wrapUp.induct with
  | case1 x h ih =>
    rw [wrapUp.eq_def, if_pos h]
    rw [wrapDown.eq_def, if_pos (by linarith : -x > Real.pi)]
    have harg : -x - 2 * Real.pi = -(x + 2 * Real.pi) := by ring
    rw [harg, ih]
  | case2 x h =>
    rw [wrapUp.eq_def, if_neg h]
    rw [wrapDown.eq_def, if_neg (by simp at h ⊢; linarith : ¬ -x > Real.pi)]

theorem wrapPi_neg (x : ℝ) : wrapPi (-x) = -wrapPi x := by
  unfold wrapPi
  rw [wrapDown_neg, wrapUp_neg, wrap_comm]

theorem wrapPi_eq_self {x : ℝ} (h1 : -Real.pi ≤ x) (h2 : x ≤ Real.pi) : wrapPi x = x := by
  unfold wrapPi
  rw [wrapDown_eq_of_le h2, wrapUp_eq_of_ge h1]

theorem wrapPi_mem (x : ℝ) : -Real.pi ≤ wrapPi x ∧ wrapPi x ≤ Real.pi :=
  ⟨wrapUp_ge _, wrapUp_le _ (wrapDown_le x)⟩

theorem radians_sub (a b : ℝ) : radians a - radians b = radians (a - b) := by
  unfold radians
  ring

theorem radians_neg (x : ℝ) : radians (-x) = -radians x := by
  unfold radians
  ring

theorem degrees_radians (x : ℝ) : degrees (radians x) = x := by
  unfold radians degrees
  field_simp

theorem degrees_neg (x : ℝ) : degrees (-x) = -degrees x := by
  unfold degrees
  ring

theorem cosfloor_eq_max (c : ℝ) : (if c < 0.1 then (0.1 : ℝ) else c) = max c 0.1 := by
  by_cases h : c < 0.1
  · rw [if_pos h, max_eq_right (le_of_lt h)]
  · rw [if_neg h, max_eq_left (not_lt.1 h)]

theorem radians_le_pi {x : ℝ} (h : x ≤ 180) : radians x ≤ Real.pi := by
  unfold radians
  have hπ := Real.pi_pos
  calc x * (Real.pi / 180) ≤ 180 * (Real.pi / 180) :=
        mul_le_mul_of_nonneg_right h (by positivity)
    _ = Real.pi := by field_simp

theorem neg_pi_le_radians {x : ℝ} (h : -180 ≤ x) : -Real.pi ≤ radians x := by
  unfold radians
  have hπ := Real.pi_pos
  calc -Real.pi = -180 * (Real.pi / 180) := by
        field_simp
        ring
    _ ≤ x * (Real.pi / 180) := mul_le_mul_of_nonneg_right h (by positivity)

theorem wrapPi_radians {x : ℝ} (h1 : -180 ≤ x) (h2 : x ≤ 180) :
    wrapPi (radians x) = radians x :=
  wrapPi_eq_self (neg_pi_le_radians h1) (radians_le_pi h2)

theorem wrapPi_sub_once {x : ℝ} (h1 : Real.pi < x) (h2 : x ≤ 3 * Real.pi) :
    wrapPi x = x - 2 * Real.pi := by
  unfold wrapPi
  rw [wrapDown.eq_def, if_pos h1, wrapDown_eq_of_le (by linarith),
    wrapUp_eq_of_ge (by linarith)]

theorem wrapPi_radians_358 : wrapPi (radians 358) = radians (-2) := by
  have hπ := Real.pi_pos
  rw [wrapPi_sub_once (x := radians 358)]
  · unfold radians
    ring
  · unfold radians
    nlinarith
  · unfold radians
    nlinarith

theorem wrapPi_radians_neg358 : wrapPi (radians (-358)) = radians 2 := by
  have h : radians (-358) = -radians 358 := radians_neg 358
  rw [h, wrapPi_neg, wrapPi_radians_358]
  rw [show radians (-2) = -radians 2 from radians_neg 2]
  ring

theorem degrees_bounds {y : ℝ} (h1 : -Real.pi ≤ y) (h2 : y ≤ Real.pi) :
    -180 ≤ degrees y ∧ degrees y ≤ 180 := by
  have hπ := Real.pi_pos
  have hd : (0 : ℝ) ≤ 180 / Real.pi := by positivity
  have e1 : -Real.pi * (180 / Real.pi) = -180 := by
    field_simp
    try ring
  have e2 : Real.pi * (180 / Real.pi) = 180 := by
    field_simp
    try ring
  unfold degrees
  constructor
  · have := mul_le_mul_of_nonneg_right h1 hd
    linarith [this, e1.symm ▸ this]
  · have := mul_le_mul_of_nonneg_right h2 hd
    linarith [this, e2 ▸ this]

/-! ## Claim theorems -/

/-- C3: for every pair of solved and reported coordinates (and any
latitude), `calculate_pa_error` satisfies exactly the spec's formulas:
`azimuthArcmin = ΔraArcmin(wrapped) / max(cos(reported.dec), 0.1)`,
`altitudeArcmin = ΔdecArcmin`, and
`totalArcsec = 60 * hypot(azimuthArcmin, altitudeArcmin)`. -/
theorem C3_error_model_formulas : ∀ solved_ra solved_dec mount_ra mount_dec latitude : ℝ,
    calculate_pa_error solved_ra solved_dec mount_ra mount_dec latitude
      = computeAlignmentError_SPEC solved_ra solved_dec mount_ra mount_dec := by
  intro sra sdec mra mdec lat
  simp only [calculate_pa_error, computeAlignmentError_SPEC, PAError.mk.injEq]
  rw [radians_sub, cosfloor_eq_max]
  have halt : degrees (radians sdec - radians mdec) * 60 = (sdec - mdec) * 60 := by
    rw [radians_sub, degrees_radians]
  refine ⟨rfl, halt, ?_⟩
  rw [halt]
  ring

/-- C2 counterexample: the claim says the RA difference is wrapped into
the half-open interval (-180°, 180°]; but for `solved.ra = 0°,
reported.ra = 180°` the code's wrap loops leave Δra at exactly -180°
(which is not in (-180, 180]), and the azimuth error is the
corresponding -10800 arcminutes. -/
theorem C2_wrap_boundary_cex :
    degrees (wrapPi (radians 0 - radians 180)) = -180 ∧
    ¬ (-180 < degrees (wrapPi (radians 0 - radians 180))) ∧
    (calculate_pa_error 0 0 180 0 40).az_error = -10800 := by
  have h1 : radians 0 - radians 180 = radians (-180) := by
    rw [radians_sub]
    norm_num
  have h2 : wrapPi (radians (-180)) = radians (-180) :=
    wrapPi_radians (by norm_num) (by norm_num)
  have h3 : degrees (wrapPi (radians 0 - radians 180)) = -180 := by
    rw [h1, h2, degrees_radians]
  refine ⟨h3, by rw [h3]; norm_num, ?_⟩
  simp only [calculate_pa_error]
  rw [h3]
  have hc : radians 0 = 0 := by
    unfold radians
    ring
  rw [hc, Real.cos_zero]
  norm_num

/-- C2 amended: the code wraps `Δra = solved.ra - reported.ra` into the
**closed** interval [-180°, 180°] (a difference of exactly ±180° stays
where it is, everything else behaves as the claimed (-180°, 180°]); the
claimed example does hold: `solved.ra = 359°, reported.ra = 1°` and
`solved.ra = 1°, reported.ra = 359°` give azimuth errors of equal
magnitude and opposite sign, from wrapped differences of -2° and +2° —
never ~358°. -/
theorem C2_wrap_closed_interval_amended :
    (∀ solved_ra mount_ra : ℝ,
        -180 ≤ degrees (wrapPi (radians solved_ra - radians mount_ra)) ∧
        degrees (wrapPi (radians solved_ra - radians mount_ra)) ≤ 180) ∧
    (∀ solved_dec mount_dec lat lat' : ℝ,
        (calculate_pa_error 359 solved_dec 1 mount_dec lat).az_error
          = -((calculate_pa_error 1 solved_dec 359 mount_dec lat').az_error)) ∧
    degrees (wrapPi (radians 359 - radians 1)) = -2 ∧
    degrees (wrapPi (radians 1 - radians 359)) = 2 := by
  have h359 : radians 359 - radians 1 = radians 358 := by
    rw [radians_sub]
    norm_num
  have h1r : radians 1 - radians 359 = radians (-358) := by
    rw [radians_sub]
    norm_num
  have hd358 : degrees (wrapPi (radians 359 - radians 1)) = -2 := by
    rw [h359, wrapPi_radians_358, degrees_radians]
  have hdneg : degrees (wrapPi (radians 1 - radians 359)) = 2 := by
    rw [h1r, wrapPi_radians_neg358, degrees_radians]
  refine ⟨?_, ?_, hd358, hdneg⟩
  · intro sra mra
    exact degrees_bounds (wrapPi_mem _).1 (wrapPi_mem _).2
  · intro sdec mdec lat lat'
    simp only [calculate_pa_error]
    rw [hd358, hdneg]
    ring

/-- C5 counterexample: the claim says that away from the cos(dec) floor
(both cosines ≥ 0.1) swapping solved and reported negates both error
components; but the azimuth error divides by the cosine of the
*reported* declination only, so for solved = (10°, 0°),
reported = (0°, 60°) the azimuth errors are +1200' and -600', which are
not negatives of each other, even though cos 0° = 1 and cos 60° = 1/2
are both ≥ 0.1. -/
theorem C5_swap_symmetry_cex :
    (0.1 : ℝ) ≤ Real.cos (radians 0) ∧ (0.1 : ℝ) ≤ Real.cos (radians 60) ∧
    (calculate_pa_error 10 0 0 60 40).az_error = 1200 ∧
    (calculate_pa_error 0 60 10 0 40).az_error = -600 ∧
    (calculate_pa_error 0 60 10 0 40).az_error
      ≠ -((calculate_pa_error 10 0 0 60 40).az_error) := by
  have h10 : radians 10 - radians 0 = radians 10 := by
    rw [radians_sub]
    norm_num
  have h01 : radians 0 - radians 10 = radians (-10) := by
    rw [radians_sub]
    norm_num
  have hw10 : wrapPi (radians 10) = radians 10 := wrapPi_radians (by norm_num) (by norm_num)
  have hw01 : wrapPi (radians (-10)) = radians (-10) :=
    wrapPi_radians (by norm_num) (by norm_num)
  have hc60 : Real.cos (radians 60) = 1 / 2 := by
    have h : radians 60 = Real.pi / 3 := by
      unfold radians
      ring
    rw [h, Real.cos_pi_div_three]
  have hc0 : Real.cos (radians 0) = 1 := by
    have h : radians 0 = 0 := by
      unfold radians
      ring
    rw [h, Real.cos_zero]
  have haz1 : (calculate_pa_error 10 0 0 60 40).az_error = 1200 := by
    simp only [calculate_pa_error]
    rw [h10, hw10, degrees_radians, hc60]
    norm_num
  have haz2 : (calculate_pa_error 0 60 10 0 40).az_error = -600 := by
    simp only [calculate_pa_error]
    rw [h01, hw01, degrees_radians, hc0]
    norm_num
  refine ⟨by rw [hc0]; norm_num, by rw [hc60]; norm_num, haz1, haz2, ?_⟩
  rw [haz1, haz2]
  norm_num

/-- C5 amended: swapping solved and reported always negates the altitude
component; it negates the azimuth component as well whenever the two
declinations have the same cosine (in particular whenever
`solved.dec = reported.dec`) — but not in general, because the azimuth
error divides by the cosine of the reported declination only
(see the counterexample). -/
theorem C5_swap_symmetry_amended :
    ∀ solved_ra solved_dec mount_ra mount_dec latitude : ℝ,
    ((calculate_pa_error mount_ra mount_dec solved_ra solved_dec latitude).alt_error
        = -((calculate_pa_error solved_ra solved_dec mount_ra mount_dec latitude).alt_error)) ∧
    (Real.cos (radians solved_dec) = Real.cos (radians mount_dec) →
      (calculate_pa_error mount_ra mount_dec solved_ra solved_dec latitude).az_error
        = -((calculate_pa_error solved_ra solved_dec mount_ra mount_dec latitude).az_error)) := by
  intro sra sdec mra mdec lat
  constructor
  · simp only [calculate_pa_error]
    rw [show radians mdec - radians sdec = -(radians sdec - radians mdec) from by ring,
      degrees_neg]
    ring
  · intro hcos
    simp only [calculate_pa_error]
    rw [show radians mra - radians sra = -(radians sra - radians mra) from by ring,
      wrapPi_neg, degrees_neg, hcos]
    ring

/-- C5 amended, witness: at solved = (1°, 0°), reported = (2°, 0°) the
equal-cosine hypothesis holds definitionally and both components negate
under the swap. -/
theorem C5_swap_symmetry_amended_witness :
    ((calculate_pa_error 2 0 1 0 40).alt_error
        = -((calculate_pa_error 1 0 2 0 40).alt_error)) ∧
    ((calculate_pa_error 2 0 1 0 40).az_error
        = -((calculate_pa_error 1 0 2 0 40).az_error)) :=
  ⟨(C5_swap_symmetry_amended 1 0 2 0 40).1, (C5_swap_symmetry_amended 1 0 2 0 40).2 rfl⟩

/-- C8: `is_aligned` uses a strict inequality: it holds exactly when
`total_error < target_accuracy`, is false at equality, and is true
strictly below the target. -/
theorem C8_is_aligned_strict : ∀ az alt total target : ℝ,
    ((PAError.mk az alt total).is_aligned target ↔ total < target) ∧
    (total = target → ¬ (PAError.mk az alt total).is_aligned target) ∧
    (total < target → (PAError.mk az alt total).is_aligned target) := by
  intro az alt total target
  refine ⟨Iff.rfl, ?_, fun h => h⟩
  intro heq halign
  exact absurd halign (heq ▸ lt_irrefl total)

/-- C8 witness: at `total_error = target = 60` alignment is rejected; at
`total_error = 59 < 60` it is accepted. -/
theorem C8_is_aligned_strict_witness :
    (¬ (PAError.mk 1 2 60).is_aligned 60) ∧ (PAError.mk 1 2 59).is_aligned 60 :=
  ⟨(C8_is_aligned_strict 1 2 60 60).2.1 rfl, (C8_is_aligned_strict 1 2 59 60).2.2 (by norm_num)⟩

theorem auto_align_step_capture_none (target : ℝ) (env : IterEnv) (st : LoopState)
    (h : env.capture = none) :
    auto_align_step target env st =
      ({ st with iteration := st.iteration + 1 },
        [.emit (.iterationCapturing (st.iteration + 1)), .emit .captureFailed, .sleep 2],
        false) := by
  unfold auto_align_step
  rw [h]

theorem auto_align_go_capture_none (target : ℝ) (envs : ℕ → IterEnv)
    (henv : ∀ n, (envs n).capture = none) :
    ∀ (fuel : ℕ) (st : LoopState), st.alignment_running = true →
      st.iteration ≤ MAX_ITERATIONS →
      (auto_align_go target envs fuel st).1.iteration
        = min MAX_ITERATIONS (st.iteration + fuel) := by
  intro fuel
  induction fuel with
  | zero =>
    intro st h1 h2
    simp only [auto_align_go]
    omega
  | succ n ih =>
    intro st h1 h2
    by_cases hg : st.alignment_running = true ∧ st.iteration < MAX_ITERATIONS
    · rw [auto_align_go, if_pos hg, auto_align_step_capture_none target _ st (henv st.iteration)]
      simp only [Bool.false_eq_true, if_false]
      have hproj : ({ st with iteration := st.iteration + 1 } : LoopState).iteration
          = st.iteration + 1 := rfl
      rw [ih { st with iteration := st.iteration + 1 } h1 (by rw [hproj]; omega), hproj]
      omega
    · rw [auto_align_go, if_neg hg]
      have hit : ¬ st.iteration < MAX_ITERATIONS := by tauto
      simp only []
      omega

example :
    (auto_align_step 60 ⟨none, none, none, none⟩ ⟨true, 0, none, none⟩).1.iteration = 1 := by
  simp [auto_align_step]

example : ∀ (target : ℝ) (envs : ℕ → IterEnv) (st : LoopState),
    st.alignment_running = true → (∀ n, (envs n).capture = none) →
    (auto_align_loop target envs st).1.iteration = MAX_ITERATIONS := by
  intro t envs st h1 h2
  unfold auto_align_loop
  simp only []
  have hproj : ({ st with iteration := 0 } : LoopState).iteration = 0 := rfl
  rw [auto_align_go_capture_none t envs h2 MAX_ITERATIONS { st with iteration := 0 } h1
    (by rw [hproj]; omega), hproj]
  omega


/-- C1 counterexample: the claim says a capture failure re-enters
`Capturing` with the iteration counter unchanged; but in the concrete
running state at iteration 0 with a failing capture collaborator, the
pass leaves the counter at 1, not 0 (`iteration += 1` runs at the top of
the pass, before the capture). -/
theorem C1_capture_retry_iteration_cex :
    (auto_align_step 60 ⟨none, none, none, none⟩ ⟨true, 0, none, none⟩).1.iteration = 1 ∧
    (auto_align_step 60 ⟨none, none, none, none⟩ ⟨true, 0, none, none⟩).1.iteration ≠ 0 := by
  constructor
  · rfl
  · intro h
    exact absurd h (by simp [auto_align_step])

/-- C1 amended: on a capture failure the pass emits the iteration
banner and the capture-failed event, pauses 2 s, and continues the loop
without breaking — but with the iteration counter already advanced by
the `iteration += 1` at the top of the pass, so every capture failure
consumes one slot of the `maxIterations` budget: a run whose captures
always fail drives the counter all the way to `MAX_ITERATIONS`. -/
theorem C1_capture_failure_amended :
    (∀ (target : ℝ) (env : IterEnv) (st : LoopState), env.capture = none →
      auto_align_step target env st =
        ({ st with iteration := st.iteration + 1 },
          [.emit (.iterationCapturing (st.iteration + 1)), .emit .captureFailed, .sleep 2],
          false)) ∧
    (∀ (target : ℝ) (envs : ℕ → IterEnv) (st : LoopState),
      st.alignment_running = true → (∀ n, (envs n).capture = none) →
      (auto_align_loop target envs st).1.iteration = MAX_ITERATIONS) := by
  constructor
  · exact auto_align_step_capture_none
  · intro t envs st h1 h2
    unfold auto_align_loop
    simp only []
    have hproj : ({ st with iteration := 0 } : LoopState).iteration = 0 := rfl
    rw [auto_align_go_capture_none t envs h2 MAX_ITERATIONS { st with iteration := 0 } h1
      (by rw [hproj]; omega), hproj]
    omega

/-- C1 amended, witness: a concrete capture-failing pass at iteration 5,
and a concrete always-failing run exhausting the budget. -/
theorem C1_capture_failure_amended_witness :
    (auto_align_step 60 ⟨none, none, none, none⟩ ⟨true, 5, none, none⟩ =
      (⟨true, 6, none, none⟩,
        [.emit (.iterationCapturing 6), .emit .captureFailed, .sleep 2], false)) ∧
    (auto_align_loop 60 (fun _ => ⟨none, none, none, none⟩) ⟨true, 0, none, none⟩).1.iteration
      = MAX_ITERATIONS :=
  ⟨C1_capture_failure_amended.1 60 ⟨none, none, none, none⟩ ⟨true, 5, none, none⟩ rfl,
    C1_capture_failure_amended.2 60 (fun _ => ⟨none, none, none, none⟩) ⟨true, 0, none, none⟩
      rfl (fun _ => rfl)⟩

/-- C4: requesting a start while `alignment_running` is set returns the
already-running rejection and the state — including the worker-thread
count — completely unchanged; no second run is queued anywhere. -/
theorem C4_start_while_running_rejected :
    ∀ (st : ServerState) (target_accuracy : ℚ), st.alignment_running = true →
      api_auto_align_start st target_accuracy = (st, .alreadyRunning) := by
  intro st t h
  unfold api_auto_align_start
  rw [if_pos h]

/-- C4 witness: concrete rejection with one worker already started. -/
theorem C4_start_while_running_rejected_witness :
    api_auto_align_start ⟨true, 1, none, none⟩ 60 = (⟨true, 1, none, none⟩, .alreadyRunning) :=
  C4_start_while_running_rejected ⟨true, 1, none, none⟩ 60 rfl

/-- C9: serial connection establishment sends `:GVP#` and succeeds only
if the response contains `OpenAstro`: (1) whenever the handshake test
fails (missing, empty, or wrong-content response) the attempt reports
failure with the port closed (`serial_conn = some false`) and the
connection flag untouched; (2) a successful attempt implies the
handshake test passed. -/
theorem C9_serial_handshake :
    (∀ (env : SerialEnv) (st : MountState),
      env.serial_available = true → env.open_ok = true →
      gvp_handshake_ok (env.responses GVP_COMMAND) = false →
      connect_serial env st = ({ st with serial_conn := some false }, false)) ∧
    (∀ (env : SerialEnv) (st : MountState),
      (connect_serial env st).2 = true →
      gvp_handshake_ok (env.responses GVP_COMMAND) = true) := by
  constructor
  · intro env st h1 h2 h3
    simp [connect_serial, h1, h2, h3]
  · intro env st h
    unfold connect_serial at h
    split_ifs at h with h1 h2 h3
    · exact h3

/-- C9 witness: a concrete wrong-vendor response is rejected with the
port closed, and a concrete `OpenAstro...` response passes the
handshake test of a successful attempt. -/
theorem C9_serial_handshake_witness :
    connect_serial ⟨true, true, fun _ => some (("Whatever").toList)⟩ ⟨none, false, none⟩
      = (⟨none, false, some false⟩, false) ∧
    gvp_handshake_ok
      ((fun _ => some (("OpenAstroTracker V1.13").toList) : List Char → Option (List Char))
        GVP_COMMAND) = true := by
  constructor
  · exact C9_serial_handshake.1 ⟨true, true, fun _ => some (("Whatever").toList)⟩
      ⟨none, false, none⟩ rfl rfl (by decide)
  · exact C9_serial_handshake.2 ⟨true, true, fun _ => some (("OpenAstroTracker V1.13").toList)⟩
      ⟨none, false, none⟩ (by decide)

/-- C10: every mount protocol operation invoked while the client is not
connected returns no value (`none` for queries, `false` for boolean
queries, `(none, none)` for the pairs) and submits no command to the
transport (the write trace is empty). -/
theorem C10_not_connected_noop :
    ∀ (env : SerialEnv) (st : MountState), st.connected = false →
      (∀ (command : List Char) (expect_response : Bool),
        send_command env st command expect_response = (none, [])) ∧
      get_position env st = (none, none) ∧
      get_status env st = none ∧
      is_slewing env st = false ∧
      is_tracking env st = false ∧
      is_adjusting env st = false ∧
      get_az_alt_position env st = (none, none) ∧
      (∀ enabled : Bool, set_tracking env st enabled = (none, [])) ∧
      home_az_alt env st = (none, []) := by
  intro env st h
  have hs : ∀ (cmd : List Char) (er : Bool), send_command env st cmd er = (none, []) := by
    intro cmd er
    unfold send_command
    rw [if_pos h]
  refine ⟨hs, ?_, ?_, ?_, ?_, ?_, ?_, fun e => hs _ _, hs _ _⟩
  · simp [get_position, hs]
  · simp [get_status, hs]
  · simp [is_slewing, hs]
  · simp [is_tracking, hs]
  · simp [is_adjusting, get_status, hs]
  · simp [get_az_alt_position, hs]

/-- C10 witness: concrete disconnected client (even with a serial mode
and open port left over) performs no transport interaction. -/
theorem C10_not_connected_noop_witness :
    send_command ⟨true, true, fun _ => some []⟩ ⟨some .serial, false, some true⟩
        (":GR#").toList true = (none, []) ∧
    is_slewing ⟨true, true, fun _ => some []⟩ ⟨some .serial, false, some true⟩ = false ∧
    get_az_alt_position ⟨true, true, fun _ => some []⟩ ⟨some .serial, false, some true⟩
      = (none, none) :=
  ⟨(C10_not_connected_noop _ _ rfl).1 _ _,
    (C10_not_connected_noop _ _ rfl).2.2.2.1,
    (C10_not_connected_noop _ _ rfl).2.2.2.2.2.2.1⟩


theorem isDigit_ne {c d : Char} (h : c.isDigit = true) (hd : d.isDigit = false) : c ≠ d := by
  intro he
  rw [he, hd] at h
  exact Bool.false_ne_true h

theorem isDigit_not_ws {c : Char} (h : c.isDigit = true) : c.isWhitespace = false := by
  cases hw : c.isWhitespace
  · rfl
  · exfalso
    simp [Char.isWhitespace] at hw
    rcases hw with ((rfl | rfl) | rfl) | rfl <;> exact absurd h (by decide)

theorem dropWhile_eq_self_of_all {p : Char → Bool} {l : List Char}
    (h : ∀ c ∈ l, p c = false) : l.dropWhile p = l := by
  cases l with
  | nil => rfl
  | cons a t =>
    rw [List.dropWhile_cons, h a (by simp)]
    simp

theorem pyStrip_eq_self {l : List Char} (h : ∀ c ∈ l, c.isWhitespace = false) :
    pyStrip l = l := by
  unfold pyStrip
  rw [dropWhile_eq_self_of_all h,
    dropWhile_eq_self_of_all (fun c hc => h c (List.mem_reverse.mp hc)),
    List.reverse_reverse]

theorem mem_dropWhile_of_neg {p : Char → Bool} {c : Char} {l : List Char}
    (hc : c ∈ l) (hp : p c = false) : c ∈ l.dropWhile p := by
  induction l with
  | nil => exact absurd hc (List.not_mem_nil c)
  | cons a t ih =>
    rw [List.dropWhile_cons]
    by_cases ha : p a = true
    · rw [ha]
      simp only [if_true]
      rcases List.mem_cons.mp hc with rfl | hmem
      · rw [hp] at ha
        exact absurd ha Bool.false_ne_true
      · exact ih hmem
    · rw [Bool.not_eq_true] at ha
      rw [ha]
      simpa using hc

theorem mem_pyStrip {c : Char} {l : List Char} (hc : c ∈ l)
    (hw : c.isWhitespace = false) : c ∈ pyStrip l := by
  unfold pyStrip
  rw [List.mem_reverse]
  exact mem_dropWhile_of_neg (List.mem_reverse.mpr (mem_dropWhile_of_neg hc hw)) hw

theorem splitOnChar_ne_nil (sep : Char) (l : List Char) : splitOnChar sep l ≠ [] := by
  cases l with
  | nil => simp [splitOnChar]
  | cons c rest =>
    rw [splitOnChar]
    cases splitOnChar sep rest with
    | nil => simp
    | cons h t =>
      by_cases hc : c = sep <;> simp [hc]

theorem mem_of_splitOnChar_length_ne_one {sep : Char} {l : List Char}
    (h : (splitOnChar sep l).length ≠ 1) : sep ∈ l := by
  induction l with
  | nil => exact absurd rfl h
  | cons c rest ih =>
    cases hs : splitOnChar sep rest with
    | nil => exact absurd hs (splitOnChar_ne_nil sep rest)
    | cons h0 t =>
      by_cases hc : c = sep
      · exact hc ▸ List.mem_cons_self c rest
      · have hval : splitOnChar sep (c :: rest) = (c :: h0) :: t := by
          simp [splitOnChar, hs, hc]
        rw [hval] at h
        simp only [List.length_cons] at h
        refine List.mem_cons_of_mem c (ih ?_)
        rw [hs]
        simpa using h

theorem pyFloatBody_bad {sgn : ℚ} {c : Char} {body : List Char}
    (hc : c ∈ body) (h1 : c.isDigit = false) (h2 : c ≠ '.') :
    pyFloatBody sgn body = none := by
  unfold pyFloatBody
  have hmem : c ∈ body.dropWhile Char.isDigit := mem_dropWhile_of_neg hc h1
  cases hrest : body.dropWhile Char.isDigit with
  | nil =>
    rw [hrest] at hmem
    exact absurd hmem (List.not_mem_nil c)
  | cons d fp =>
    rw [hrest] at hmem
    simp only []
    by_cases hd : d = '.'
    · rw [if_pos hd]
      have hcfp : c ∈ fp := by
        rcases List.mem_cons.mp hmem with rfl | hm
        · exact absurd hd h2
        · exact hm
      have hall : fp.all Char.isDigit = false := by
        cases hfa : fp.all Char.isDigit
        · rfl
        · exact absurd ((List.all_eq_true.mp hfa) c hcfp) (by rw [h1]; exact Bool.false_ne_true)
      rw [if_neg]
      intro hand
      rw [hall] at hand
      exact Bool.false_ne_true hand.1
    · rw [if_neg hd]

theorem pyFloatCore_bad {c : Char} {s : List Char}
    (hc : c ∈ s) (h1 : c.isDigit = false) (h2 : c ≠ '.')
    (h3 : c ≠ '-') (h4 : c ≠ '+') :
    pyFloatCore s = none := by
  cases s with
  | nil => rfl
  | cons a rest =>
    rw [pyFloatCore]
    have hcr : c = a ∨ c ∈ rest := List.mem_cons.mp hc
    by_cases ha : a = '-'
    · rw [if_pos ha]
      refine pyFloatBody_bad ?_ h1 h2
      rcases hcr with rfl | hm
      · exact absurd ha h3
      · exact hm
    · rw [if_neg ha]
      by_cases hb : a = '+'
      · rw [if_pos hb]
        refine pyFloatBody_bad ?_ h1 h2
        rcases hcr with rfl | hm
        · exact absurd hb h4
        · exact hm
      · rw [if_neg hb]
        exact pyFloatBody_bad hc h1 h2

theorem pyFloat_bad {c : Char} {l : List Char}
    (hc : c ∈ l) (h1 : c.isDigit = false) (h2 : c ≠ '.')
    (h3 : c ≠ '-') (h4 : c ≠ '+') (h5 : c.isWhitespace = false) :
    pyFloat l = none :=
  pyFloatCore_bad (mem_pyStrip hc h5) h1 h2 h3 h4

theorem parse_ra_wrong_fields {l : List Char}
    (h3 : (splitOnChar ':' (pyStrip l)).length ≠ 3)
    (h1 : (splitOnChar ':' (pyStrip l)).length ≠ 1) :
    parse_ra_string l = none := by
  unfold parse_ra_string
  rw [if_neg h3]
  have hmem : ':' ∈ pyStrip l := mem_of_splitOnChar_length_ne_one h1
  rw [pyFloat_bad hmem (by decide) (by decide) (by decide) (by decide) (by decide)]
  rfl

theorem parse_ra_bad_component {l : List Char}
    (hlen : (splitOnChar ':' (pyStrip l)).length = 3)
    (h : pyInt ((splitOnChar ':' (pyStrip l)).getD 0 []) = none ∨
      pyInt ((splitOnChar ':' (pyStrip l)).getD 1 []) = none ∨
      pyFloat ((splitOnChar ':' (pyStrip l)).getD 2 []) = none) :
    parse_ra_string l = none := by
  unfold parse_ra_string
  rw [if_pos hlen]
  rcases h with h | h | h <;>
    cases hp0 : pyInt ((splitOnChar ':' (pyStrip l)).getD 0 []) <;>
    cases hp1 : pyInt ((splitOnChar ':' (pyStrip l)).getD 1 []) <;>
    cases hp2 : pyFloat ((splitOnChar ':' (pyStrip l)).getD 2 []) <;>
    simp_all

theorem parse_dec_core_bad {sign : ℚ} {s2 : List Char}
    (hlen : 2 ≤ (splitOnChar ':' s2).length)
    (h : pyInt ((splitOnChar ':' s2).getD 0 []) = none ∨
      pyInt ((splitOnChar ':' s2).getD 1 []) = none ∨
      (2 < (splitOnChar ':' s2).length ∧ pyFloat ((splitOnChar ':' s2).getD 2 []) = none)) :
    parse_dec_core sign s2 = none := by
  unfold parse_dec_core
  rw [if_pos hlen]
  rcases h with h | h | ⟨hgt, h⟩ <;>
    cases hp0 : pyInt ((splitOnChar ':' s2).getD 0 []) <;>
    cases hp1 : pyInt ((splitOnChar ':' s2).getD 1 []) <;>
    [skip; skip; skip; skip; skip; skip; skip; skip; skip; skip; skip; skip] <;>
    simp_all

theorem parse_dec_core_single {sign : ℚ} {s2 : List Char}
    (hlen : (splitOnChar ':' s2).length < 2)
    (h : pyFloat s2 = none) :
    parse_dec_core sign s2 = none := by
  unfold parse_dec_core
  rw [if_neg (by omega), h]
  rfl

theorem decNormalize_append (a b : List Char) :
    decNormalize (a ++ b) = decNormalize a ++ decNormalize b := by
  simp [decNormalize]

theorem decNormalize_digits {l : List Char} (h : l.all Char.isDigit = true) :
    decNormalize l = l := by
  induction l with
  | nil => rfl
  | cons c t ih =>
    have hc : c.isDigit = true := (List.all_eq_true.mp h) c (List.mem_cons_self c t)
    have ht : t.all Char.isDigit = true :=
      List.all_eq_true.mpr fun x hx => (List.all_eq_true.mp h) x (List.mem_cons_of_mem c hx)
    have e1 : (if c = '*' then ':' else c) = c := if_neg (isDigit_ne hc (by decide))
    have e2 : (if c = apostropheChar then ':' else c) = c :=
      if_neg (isDigit_ne hc (by decide))
    have e3 : c ≠ quoteChar := isDigit_ne hc (by decide)
    simp only [decNormalize, List.map_cons, List.filter_cons, e1, e2] at *
    rw [if_pos (by simpa using e3)]
    simpa [decNormalize] using ih ht

theorem decNormalize_sep {sep : Char}
    (h : sep = ':' ∨ sep = '*' ∨ sep = apostropheChar) :
    decNormalize [sep] = [':'] := by
  rcases h with rfl | rfl | rfl <;> decide

theorem parse_dec_string_cons {l : List Char} {c0 : Char} {rest : List Char}
    (h : pyStrip l = c0 :: rest) :
    parse_dec_string l =
      if c0 = '-' then parse_dec_core (-1) (decNormalize rest)
      else if c0 = '+' then parse_dec_core 1 (decNormalize rest)
      else parse_dec_core 1 (decNormalize (c0 :: rest)) := by
  unfold parse_dec_string
  rw [h]

theorem parse_dec_string_sep {sgn ds ms ss : List Char} {sep : Char}
    (hsep : sep = ':' ∨ sep = '*' ∨ sep = apostropheChar)
    (hsgn : sgn = [] ∨ sgn = ['+'] ∨ sgn = ['-'])
    (hds : ds ≠ []) (hd : ds.all Char.isDigit = true)
    (hm : ms.all Char.isDigit = true) (hs : ss.all Char.isDigit = true) :
    parse_dec_string (sgn ++ ds ++ [sep] ++ ms ++ [sep] ++ ss)
      = parse_dec_core (if sgn = ['-'] then (-1 : ℚ) else 1)
          (ds ++ [':'] ++ ms ++ [':'] ++ ss) := by
  have hsepw : sep.isWhitespace = false := by
    rcases hsep with rfl | rfl | rfl <;> decide
  have hws : ∀ c ∈ sgn ++ ds ++ [sep] ++ ms ++ [sep] ++ ss, c.isWhitespace = false := by
    intro c hc
    simp only [List.mem_append, List.mem_singleton] at hc
    rcases hc with ((((h | h) | rfl) | h) | rfl) | h
    · rcases hsgn with rfl | rfl | rfl
      · exact absurd h (List.not_mem_nil c)
      · simp at h
        subst h
        decide
      · simp at h
        subst h
        decide
    · exact isDigit_not_ws ((List.all_eq_true.mp hd) c h)
    · exact hsepw
    · exact isDigit_not_ws ((List.all_eq_true.mp hm) c h)
    · exact hsepw
    · exact isDigit_not_ws ((List.all_eq_true.mp hs) c h)
  have hnorm : decNormalize (ds ++ [sep] ++ ms ++ [sep] ++ ss)
      = ds ++ [':'] ++ ms ++ [':'] ++ ss := by
    rw [show ds ++ [sep] ++ ms ++ [sep] ++ ss = ds ++ ([sep] ++ (ms ++ ([sep] ++ ss))) from
      by simp, decNormalize_append, decNormalize_append, decNormalize_append,
      decNormalize_append, decNormalize_digits hd, decNormalize_sep hsep,
      decNormalize_digits hm, decNormalize_digits hs]
    simp
  rcases hsgn with rfl | rfl | rfl
  · rcases hds' : ds with _ | ⟨d0, ds'⟩
    · exact absurd hds' hds
    · subst hds'
      have hd0 : d0.isDigit = true := (List.all_eq_true.mp hd) d0 (List.mem_cons_self d0 ds')
      have hL : ([] : List Char) ++ (d0 :: ds') ++ [sep] ++ ms ++ [sep] ++ ss
          = d0 :: (ds' ++ [sep] ++ ms ++ [sep] ++ ss) := by simp
      have hstrip : pyStrip (([] : List Char) ++ (d0 :: ds') ++ [sep] ++ ms ++ [sep] ++ ss)
          = d0 :: (ds' ++ [sep] ++ ms ++ [sep] ++ ss) := by
        rw [pyStrip_eq_self hws, hL]
      rw [parse_dec_string_cons hstrip, if_neg (isDigit_ne hd0 (by decide)),
        if_neg (isDigit_ne hd0 (by decide)), if_neg (by decide : ¬ ([] : List Char) = ['-']),
        show d0 :: (ds' ++ [sep] ++ ms ++ [sep] ++ ss)
          = (d0 :: ds') ++ [sep] ++ ms ++ [sep] ++ ss from by simp, hnorm]
  · have hstrip : pyStrip ((['+'] : List Char) ++ ds ++ [sep] ++ ms ++ [sep] ++ ss)
        = '+' :: (ds ++ [sep] ++ ms ++ [sep] ++ ss) := by
      rw [pyStrip_eq_self hws]
      simp
    rw [parse_dec_string_cons hstrip, if_neg (by decide : ¬ ('+' : Char) = '-'),
      if_pos rfl, if_neg (by decide : ¬ (['+'] : List Char) = ['-']), hnorm]
  · have hstrip : pyStrip ((['-'] : List Char) ++ ds ++ [sep] ++ ms ++ [sep] ++ ss)
        = '-' :: (ds ++ [sep] ++ ms ++ [sep] ++ ss) := by
      rw [pyStrip_eq_self hws]
      simp
    rw [parse_dec_string_cons hstrip, if_pos rfl,
      if_pos (rfl : (['-'] : List Char) = ['-']), hnorm]

/-- C6 counterexample: the double-quote character is not an
interchangeable separator: `parse_dec_string` deletes it instead of
treating it as `:`, so the quote-separated form of 10°20'30" parses as
the decimal number 102030 while the colon form parses as 10°20'30"
= 1241/120 degrees. -/
theorem C6_quote_separator_cex :
    parse_dec_string ['1','0',':','2','0',':','3','0'] = some (1241/120) ∧
    parse_dec_string ['1','0',quoteChar,'2','0',quoteChar,'3','0'] = some 102030 ∧
    (1241 / 120 : ℚ) ≠ 102030 := by
  refine ⟨?_, ?_, by norm_num⟩
  · simp [parse_dec_string, parse_dec_core, pyStrip, decNormalize, splitOnChar, pyInt,
      pyIntCore, pyFloat, pyFloatCore, pyFloatBody, digitsToNat, digitVal, apostropheChar,
      quoteChar]
    try norm_num
  · simp [parse_dec_string, parse_dec_core, pyStrip, decNormalize, splitOnChar, pyInt,
      pyIntCore, pyFloat, pyFloatCore, pyFloatBody, digitsToNat, digitVal, apostropheChar,
      quoteChar]
    try norm_num

/-- C6 amended: only `:`, `*` and the apostrophe are interchangeable
separators for `parse_dec_string`; for every valid signed DD MM SS
digit-triple the three give identical results (the double-quote
character is instead deleted from the input, see the counterexample). -/
theorem C6_separators_amended :
    ∀ sgn ds ms ss : List Char,
      (sgn = [] ∨ sgn = ['+'] ∨ sgn = ['-']) →
      ds ≠ [] → ds.all Char.isDigit = true →
      ms.all Char.isDigit = true → ss.all Char.isDigit = true →
      (parse_dec_string (sgn ++ ds ++ ['*'] ++ ms ++ ['*'] ++ ss)
          = parse_dec_string (sgn ++ ds ++ [':'] ++ ms ++ [':'] ++ ss)) ∧
      (parse_dec_string (sgn ++ ds ++ [apostropheChar] ++ ms ++ [apostropheChar] ++ ss)
          = parse_dec_string (sgn ++ ds ++ [':'] ++ ms ++ [':'] ++ ss)) := by
  intro sgn ds ms ss hsgn hds hd hm hs
  constructor
  · rw [parse_dec_string_sep (Or.inr (Or.inl rfl)) hsgn hds hd hm hs,
      parse_dec_string_sep (Or.inl rfl) hsgn hds hd hm hs]
  · rw [parse_dec_string_sep (Or.inr (Or.inr rfl)) hsgn hds hd hm hs,
      parse_dec_string_sep (Or.inl rfl) hsgn hds hd hm hs]

/-- C6 amended, witness: `-10*20*30`, `-10'20'30` and `-10:20:30`
parse identically. -/
theorem C6_separators_amended_witness :
    (parse_dec_string (['-'] ++ ['1','0'] ++ ['*'] ++ ['2','0'] ++ ['*'] ++ ['3','0'])
        = parse_dec_string (['-'] ++ ['1','0'] ++ [':'] ++ ['2','0'] ++ [':'] ++ ['3','0'])) ∧
    (parse_dec_string
          (['-'] ++ ['1','0'] ++ [apostropheChar] ++ ['2','0'] ++ [apostropheChar] ++ ['3','0'])
        = parse_dec_string (['-'] ++ ['1','0'] ++ [':'] ++ ['2','0'] ++ [':'] ++ ['3','0'])) :=
  C6_separators_amended ['-'] ['1','0'] ['2','0'] ['3','0']
    (Or.inr (Or.inr rfl)) (by decide) (by decide) (by decide) (by decide)

/-- C7 counterexample: the claim says a colon-separated input with the
wrong field count fails; but `parse_dec_string` accepts any input with
two or more fields and silently ignores fields beyond the third:
`10:20:30:40` parses successfully to 1241/120 degrees. -/
theorem C7_field_count_cex :
    parse_dec_string ['1','0',':','2','0',':','3','0',':','4','0'] = some (1241/120) ∧
    parse_dec_string ['1','0',':','2','0',':','3','0',':','4','0'] ≠ none := by
  have h : parse_dec_string ['1','0',':','2','0',':','3','0',':','4','0']
      = some (1241/120) := by
    simp [parse_dec_string, parse_dec_core, pyStrip, decNormalize, splitOnChar, pyInt,
      pyIntCore, pyFloat, pyFloatCore, pyFloatBody, digitsToNat, digitVal, apostropheChar,
      quoteChar]
    try norm_num
  exact ⟨h, by rw [h]; simp⟩

/-- C7 amended: `parse_ra_string` fails on every wrong field count
(anything other than 3 fields or a bare 1-field decimal) and on every
non-numeric component of a 3-field input; `parse_dec_string`'s
post-normalisation stage fails on a non-numeric component among the (at
most three) fields it uses when there are ≥ 2 fields, and on a 1-field
input exactly when the decimal fallback fails — but it does not reject
extra fields (see the counterexample). -/
theorem C7_malformed_inputs_amended :
    (∀ l : List Char, (splitOnChar ':' (pyStrip l)).length ≠ 3 →
      (splitOnChar ':' (pyStrip l)).length ≠ 1 → parse_ra_string l = none) ∧
    (∀ l : List Char, (splitOnChar ':' (pyStrip l)).length = 3 →
      (pyInt ((splitOnChar ':' (pyStrip l)).getD 0 []) = none ∨
        pyInt ((splitOnChar ':' (pyStrip l)).getD 1 []) = none ∨
        pyFloat ((splitOnChar ':' (pyStrip l)).getD 2 []) = none) →
      parse_ra_string l = none) ∧
    (∀ (sign : ℚ) (s2 : List Char), 2 ≤ (splitOnChar ':' s2).length →
      (pyInt ((splitOnChar ':' s2).getD 0 []) = none ∨
        pyInt ((splitOnChar ':' s2).getD 1 []) = none ∨
        (2 < (splitOnChar ':' s2).length ∧ pyFloat ((splitOnChar ':' s2).getD 2 []) = none)) →
      parse_dec_core sign s2 = none) ∧
    (∀ (sign : ℚ) (s2 : List Char), (splitOnChar ':' s2).length < 2 →
      pyFloat s2 = none → parse_dec_core sign s2 = none) :=
  ⟨fun _ h3 h1 => parse_ra_wrong_fields h3 h1,
    fun _ hlen h => parse_ra_bad_component hlen h,
    fun _ _ hlen h => parse_dec_core_bad hlen h,
    fun _ _ hlen h => parse_dec_core_single hlen h⟩

/-- C7 amended, witness: `1:2` (2 fields) and `1:x:3` (non-numeric
minute) fail for RA; `1:x` and `ab` fail for DEC. -/
theorem C7_malformed_inputs_amended_witness :
    parse_ra_string ['1',':','2'] = none ∧
    parse_ra_string ['1',':','x',':','3'] = none ∧
    parse_dec_core 1 ['1',':','x'] = none ∧
    parse_dec_core 1 ['a','b'] = none :=
  ⟨C7_malformed_inputs_amended.1 ['1',':','2'] (by decide) (by decide),
    C7_malformed_inputs_amended.2.1 ['1',':','x',':','3'] (by decide)
      (Or.inr (Or.inl (by decide))),
    C7_malformed_inputs_amended.2.2.1 1 ['1',':','x'] (by decide)
      (Or.inr (Or.inl (by decide))),
    C7_malformed_inputs_amended.2.2.2 1 ['a','b'] (by decide) (by decide)⟩

end OATPA
